import Mathlib

/-!
Verification development for the clinic-system server's dual-token
authentication and role-authorization subsystem.

The definitions below are a shallow embedding of the JavaScript source:
  * src/util/token.js            — generateAccessToken / generateRefreshToken
  * src/util/createError.js      — the failure envelope constructor
  * middleware verifyToken       — access-token verifier (part_006 lines 19-35)
  * middleware authorization     — role guard (part_006 lines 41-66)
  * src/controllers/patientController.js (second document)
                                 — Register / login / refreshToken / googleCallback
  * src/models/investigation.js  — UserSchema (mongoose document validation)
  * util/validations registerSchema (Joi) — registration validation

Machine-level JS behaviour (undefined property access, promise rejections,
library errors) is modelled explicitly; error-message strings produced by
the JS runtime or by third-party libraries (V8, jsonwebtoken, bcryptjs,
mongoose) are abstracted by a kind tag, while every message string written
in the repository itself is kept verbatim.
-/

namespace Clinic

/-- Decoded JWT claims payload as signed by src/util/token.js:
jwt.sign embeds an object with fields id and role.  The role field is
optional because a JS object field may be undefined. -/
structure Claims where
  id : String
  role : Option String
deriving Repr, DecidableEq

/-- A signed JWT, modelled as its payload together with the secret it was
signed with and its issue/expiry instants (seconds).  Tampering with a
token is modelled as its secret differing from the verifier's secret. -/
structure SignedToken where
  id : String
  role : Option String
  secret : String
  iat : Nat
  exp : Nat
deriving Repr, DecidableEq

/-- Environment configuration read by the auth core: the two JWT secrets,
the two expiry durations (seconds), and the deployment-mode flag
(NODE_ENV === "production"). -/
structure Config where
  jwtAccessSecret : String
  jwtAccessExpiresIn : Nat
  jwtRefreshSecret : String
  jwtRefreshExpiresIn : Nat
  nodeEnvProduction : Bool
deriving Repr, DecidableEq

/-- Model of jwt.verify(token, secret) evaluated at instant now: succeeds
with the decoded claims exactly when the token was signed with the same
secret and its expiry has not elapsed; any failure (wrong signature or
expiry) yields none, matching the library's single error path. -/
def jwtVerify (t : SignedToken) (secret : String) (now : Nat) : Option Claims :=
  if t.secret = secret ∧ now < t.exp then some ⟨t.id, t.role⟩ else none

/-- Model of generateAccessToken (src/util/token.js lines 3-11):
jwt.sign with payload (id := userId, role := userRole) under
JWT_ACCESS_SECRET, expiring after JWT_ACCESS_EXPIRES_IN. -/
def generateAccessToken (cfg : Config) (now : Nat) (userId : String)
    (userRole : Option String) : SignedToken :=
  ⟨userId, userRole, cfg.jwtAccessSecret, now, now + cfg.jwtAccessExpiresIn⟩

/-- Model of generateRefreshToken (src/util/token.js lines 13-21):
same payload shape, signed with JWT_REFRESH_SECRET and the refresh
expiry. -/
def generateRefreshToken (cfg : Config) (now : Nat) (userId : String)
    (userRole : Option String) : SignedToken :=
  ⟨userId, userRole, cfg.jwtRefreshSecret, now, now + cfg.jwtRefreshExpiresIn⟩

/-- One space-separated part of an Authorization header value: either a
plain word (such as a scheme name) or an embedded signed token.  This
models the result of authHeader.split on a space. -/
inductive HeaderPart where
  | word (s : String)
  | tok (t : SignedToken)
deriving Repr, DecidableEq

/-- jwt.verify applied to one header part: a plain word is never a valid
JWT (the library raises a malformed-token error, here none); an embedded
token verifies per jwtVerify. -/
def jwtVerifyPart (p : HeaderPart) (secret : String) (now : Nat) : Option Claims :=
  match p with
  | .word _ => none
  | .tok t => jwtVerify t secret now

/-- Kind tag abstracting an error message produced by the JS runtime or a
library rather than by the repository's own code. -/
inductive JsErrorKind where
  | typeErrorHeaderUndefined
  | jwtMissingToken
  | jwtInvalidOrExpired
  | mongooseValidation
  | bcryptIllegalArgs
deriving Repr, DecidableEq

/-- A registration validation rule of the Joi registerSchema
(util/validations, embedded in src/util/token.js second document).
One constructor per rule that can appear in error.details when the
schema is validated with abortEarly false. -/
inductive Rule where
  | nameRequired
  | nameEmpty
  | nameMin
  | nameMax
  | emailRequired
  | emailEmpty
  | emailFormat
  | passwordRequired
  | passwordEmpty
  | passwordMin
  | passwordPattern
  | roleRequired
  | roleEmpty
  | roleEnum
deriving Repr, DecidableEq

/-- The details payload attached to a failure envelope by the various
createError call sites: absent, a plain string, the list of violated
validation rules, an email echo, a role echo, or a caught runtime error
abstracted by kind. -/
inductive ErrDetails where
  | omitted
  | str (s : String)
  | rules (rs : List Rule)
  | email (e : String)
  | roleOf (r : Option String)
  | caught (k : JsErrorKind)
deriving Repr, DecidableEq

/-- The failure envelope built by src/util/createError.js: message,
numeric status code, the derived status string ("fail" when the decimal
status code starts with the digit 4, "error" otherwise), an optional
machine code and optional details. -/
structure ErrEnvelope where
  message : String
  statusCode : Nat
  status : String
  code : Option String
  details : ErrDetails
deriving Repr, DecidableEq

/-- Leading decimal digit of a number, with explicit fuel so that it
computes by structural recursion.  The decimal string of n starts with
the digit 4 exactly when its leading decimal digit is 4. -/
def leadingDigitAux : Nat → Nat → Nat
  | 0, n => n
  | fuel + 1, n => if n < 10 then n else leadingDigitAux fuel (n / 10)

/-- Leading decimal digit of a number. -/
def leadingDigit (n : Nat) : Nat := leadingDigitAux n n

/-- Model of createError(message, statusCode, options): the status
string is "fail" when the decimal rendering of the status code starts
with the digit 4 (the source tests toString + startsWith, modelled by
the leading decimal digit), "error" otherwise. -/
def createError (message : String) (statusCode : Nat) (code : Option String)
    (details : ErrDetails) : ErrEnvelope :=
  ⟨message, statusCode,
    if leadingDigit statusCode = 4 then "fail" else "error",
    code, details⟩

/-- The request state seen by the auth middlewares: the raw Authorization
header (absent, or the list of its space-separated parts) and the
identity possibly attached to the request context (req.user) by an
earlier middleware. -/
structure MwRequest where
  authorizationHeader : Option (List HeaderPart)
  user : Option Claims
deriving Repr, DecidableEq

/-- Outcome of one auth middleware invocation: either next(err) with a
failure envelope, or falling through to the next handler with the
req.user value the request context then carries. -/
inductive MwResult where
  | nextErr (e : ErrEnvelope)
  | proceed (user : Option Claims)
deriving Repr, DecidableEq

/-- Model of the verifyToken middleware (part_006 lines 19-35).
token := authHeader?.split(" ")[1]; the source then tests the JS falsy
check (!token), which fires both when the component is undefined (header
absent, or fewer than two space-separated parts) and when it is the
empty string (as in "Bearer " or "Bearer  x"), yielding 401; a truthy
token failing jwt.verify yields 403 with the details string written in
the source (note the doubled space); a verifying token is attached to
req.user and the chain continues.  The middleware performs no database
access: its observable state is the request alone. -/
def verifyToken (cfg : Config) (now : Nat) (req : MwRequest) : MwResult :=
  match req.authorizationHeader >>= fun parts => parts[1]? with
  | none => .nextErr (createError "Access token is required" 401 none .omitted)
  | some part =>
    if part = .word "" then
      .nextErr (createError "Access token is required" 401 none .omitted)
    else
      match jwtVerifyPart part cfg.jwtAccessSecret now with
      | none =>
        .nextErr (createError "invalid access token" 403 none
          (.str "Token is  expired or invalid"))
      | some decoded => .proceed (some decoded)

/-- JavaScript truthiness of the decoded role field: an absent field and
the empty string are falsy. -/
def jsTruthyStr : Option String → Bool
  | none => false
  | some s => s ≠ ""

/-- allowedRoles.includes(decoded.role): includes of an undefined value
is false. -/
def roleIncluded (allowedRoles : List String) : Option String → Bool
  | none => false
  | some r => allowedRoles.contains r

/-- Model of the authorization middleware factory (part_006 lines 41-66).
Inside a try/catch it re-reads req.headers.authorization, re-splits it
and re-verifies the token with jwt.verify — it never consults req.user.
An absent header makes .split throw a TypeError; a missing second part
makes jwt.verify throw; both land in the catch block producing the 401
AUTHORIZATION_ERROR envelope, as does any verification failure.  A
verified payload whose role is falsy or not in allowedRoles yields the
403 UNAUTHORIZED envelope; otherwise next() is called and req.user is
left untouched. -/
def authorization (cfg : Config) (now : Nat) (allowedRoles : List String)
    (req : MwRequest) : MwResult :=
  match req.authorizationHeader with
  | none =>
    .nextErr (createError "Authorization failed" 401 (some "AUTHORIZATION_ERROR")
      (.caught .typeErrorHeaderUndefined))
  | some parts =>
    match parts[1]? with
    | none =>
      .nextErr (createError "Authorization failed" 401 (some "AUTHORIZATION_ERROR")
        (.caught .jwtMissingToken))
    | some part =>
      match jwtVerifyPart part cfg.jwtAccessSecret now with
      | none =>
        .nextErr (createError "Authorization failed" 401 (some "AUTHORIZATION_ERROR")
          (.caught .jwtInvalidOrExpired))
      | some decoded =>
        if jsTruthyStr decoded.role && roleIncluded allowedRoles decoded.role then
          .proceed req.user
        else
          .nextErr (createError "You are not authorized to access this resource" 403
            (some "UNAUTHORIZED") (.roleOf decoded.role))

/-- A stored Identity document of the User model
(src/models/investigation.js second document, UserSchema). -/
structure User where
  id : String
  name : String
  email : String
  password : Option String
  google : Bool
  role : Option String
deriving Repr, DecidableEq

/-- The role enumeration of UserSchema: enum ["admin", "doctor",
"staff"].  Note that "patient" is absent. -/
def userRoleEnum : List String := ["admin", "doctor", "staff"]

/-- Mongoose document validation of UserSchema on save: name and email
are required (a required string rejects absence and the empty string);
password is required unless the google flag is set; a present role must
belong to the enum, an absent role is admitted (the field is not
required). -/
def userSchemaValid (u : User) : Bool :=
  (u.name != "") && (u.email != "") &&
  (u.google || (match u.password with | some p => p != "" | none => false)) &&
  (match u.role with | some r => userRoleEnum.contains r | none => true)

/-- Model of newUser.save(): mongoose validates the document against
UserSchema; on success the document is appended to the collection, on
failure a validation error is raised (to be caught, or not, by the
caller). -/
def saveUser (store : List User) (u : User) : Except JsErrorKind (List User) :=
  if userSchemaValid u then .ok (store ++ [u]) else .error .mongooseValidation

/-- The body of a registration request; each field may be absent. -/
structure RegisterInput where
  name : Option String
  email : Option String
  password : Option String
  role : Option String
deriving Repr, DecidableEq

/-- The special-character set of the registerSchema password pattern:
the characters matched by the bracket expression of the regular
expression in the source.  The quote, double-quote, backslash, brace and
backtick characters are written by code point. -/
def passwordSpecials : List Char :=
  ['!', '@', '#', '$', '%', '^', '&', '*', '(', ')', '_', '+', '-', '=',
   '[', ']', Char.ofNat 123, Char.ofNat 125, ';', Char.ofNat 39, ':',
   Char.ofNat 34, Char.ofNat 92, '|', ',', '.', '<', '>', '/', '?', '~',
   Char.ofNat 96]

/-- A character admitted by the pattern's final character class
[A-Za-z\d<specials>]. -/
def passwordCharOk (c : Char) : Bool :=
  c.isUpper || c.isLower || c.isDigit || passwordSpecials.contains c

/-- The registerSchema password pattern, i.e. the regular expression
anchored lookaheads for a lowercase letter, an uppercase letter, a digit
and a special character, followed by at least eight characters drawn
from the admitted class. -/
def passwordPatternOk (s : String) : Bool :=
  s.data.any Char.isLower && s.data.any Char.isUpper &&
  s.data.any Char.isDigit && s.data.any (passwordSpecials.contains ·) &&
  s.data.all passwordCharOk && decide (8 ≤ s.length)

/-- Joi validation of the name field: required; an empty string is
rejected by the base string rule; otherwise min(3) and max(50) are both
checked (abortEarly false collects every failure). -/
def validateName : Option String → List Rule
  | none => [.nameRequired]
  | some s =>
    if s = "" then [.nameEmpty]
    else
      (if s.length < 3 then [.nameMin] else []) ++
      (if 50 < s.length then [.nameMax] else [])

/-- Joi validation of the email field: required; empty rejected; the
email format check is the library's, abstracted here as a boolean
predicate parameter. -/
def validateEmail (emailOk : String → Bool) : Option String → List Rule
  | none => [.emailRequired]
  | some s =>
    if s = "" then [.emailEmpty]
    else if emailOk s then [] else [.emailFormat]

/-- Joi validation of the password field: required; empty rejected;
min(8) and the pattern are both checked. -/
def validatePassword : Option String → List Rule
  | none => [.passwordRequired]
  | some s =>
    if s = "" then [.passwordEmpty]
    else
      (if s.length < 8 then [.passwordMin] else []) ++
      (if passwordPatternOk s then [] else [.passwordPattern])

/-- The role literals accepted by registerSchema:
valid("patient", "doctor", "staff", "admin"). -/
def registerRoleEnum : List String := ["patient", "doctor", "staff", "admin"]

/-- Joi validation of the role field: required; empty rejected; a
present value must be one of the four accepted literals. -/
def validateRole : Option String → List Rule
  | none => [.roleRequired]
  | some s =>
    if s = "" then [.roleEmpty]
    else if registerRoleEnum.contains s then [] else [.roleEnum]

/-- registerSchema.validate(body, abortEarly false): the violated rules
of every field are collected, in schema key order, rather than stopping
at the first failure. -/
def registerValidate (emailOk : String → Bool) (input : RegisterInput) : List Rule :=
  validateName input.name ++ validateEmail emailOk input.email ++
  validatePassword input.password ++ validateRole input.role

/-- Independent per-rule reading of the validation schema, following the
spec sentence that the reported details list every violated rule: each
rule is stated on its own, with the precedence guards (required before
empty before the remaining rules of the field) made explicit. -/
def ruleViolated (emailOk : String → Bool) (input : RegisterInput) : Rule → Bool
  | .nameRequired => input.name = none
  | .nameEmpty => input.name = some ""
  | .nameMin =>
    match input.name with
    | some s => s ≠ "" && s.length < 3
    | none => false
  | .nameMax =>
    match input.name with
    | some s => s ≠ "" && 50 < s.length
    | none => false
  | .emailRequired => input.email = none
  | .emailEmpty => input.email = some ""
  | .emailFormat =>
    match input.email with
    | some s => s ≠ "" && !emailOk s
    | none => false
  | .passwordRequired => input.password = none
  | .passwordEmpty => input.password = some ""
  | .passwordMin =>
    match input.password with
    | some s => s ≠ "" && s.length < 8
    | none => false
  | .passwordPattern =>
    match input.password with
    | some s => s ≠ "" && !passwordPatternOk s
    | none => false
  | .roleRequired => input.role = none
  | .roleEmpty => input.role = some ""
  | .roleEnum =>
    match input.role with
    | some s => s ≠ "" && !registerRoleEnum.contains s
    | none => false

/-- Outcome of the Register handler (patientController.js second
document, lines 135-181): a failure envelope handed to next, or the 201
success payload whose data carries exactly the new identity's id, name
and email. -/
inductive RegisterResult where
  | err (e : ErrEnvelope)
  | created (statusCode : Nat) (message : String)
      (userId : String) (name : String) (email : String)
deriving Repr, DecidableEq

/-- Model of Register (patientController.js lines 135-181).  The
password hashing primitive is an interface parameter (bcrypt.hash with
salt rounds 10 in the source); freshId stands for the ObjectId minted
for the new document.  Validation failure yields the 400
VALIDATION_FAILED envelope whose details are all collected rule
violations; an existing email yields 400 USER_EXISTS; otherwise the new
user document (google defaulting to false) is saved, a save-time
validation error being caught into the 500 REGISTRATION_ERROR
envelope. -/
def Register (hash : String → String) (emailOk : String → Bool)
    (store : List User) (freshId : String) (input : RegisterInput) :
    RegisterResult × List User :=
  let errs := registerValidate emailOk input
  if errs ≠ [] then
    (.err (createError "Validation Error" 400 (some "VALIDATION_FAILED")
      (.rules errs)), store)
  else
    let email := input.email.getD ""
    match store.find? (fun u => u.email == email) with
    | some _ =>
      (.err (createError "User already exists" 400 (some "USER_EXISTS")
        (.email email)), store)
    | none =>
      let newUser : User :=
        ⟨freshId, input.name.getD "", email,
          some (hash (input.password.getD "")), false, input.role⟩
      match saveUser store newUser with
      | .ok store2 =>
        (.created 201 "User registered successfully" freshId newUser.name
          newUser.email, store2)
      | .error _ =>
        (.err (createError "Registration failed" 500 (some "REGISTRATION_ERROR")
          (.caught .mongooseValidation)), store)

/-- Model of bcryptjs compare(password, storedHash): the library rejects
(the promise fails) when the stored hash is not a string — in this
system, when the account was created by the OAuth callback and has no
password — and otherwise resolves to the boolean result of the
comparison, which is itself an interface parameter. -/
def bcryptCompare (compare : String → String → Bool) (password : String) :
    Option String → Except JsErrorKind Bool
  | none => .error .bcryptIllegalArgs
  | some h => .ok (compare password h)

/-- The option bag passed to res.cookie by login and googleCallback. -/
structure CookieOptions where
  httpOnly : Bool
  secure : Bool
  sameSite : String
  maxAgeMs : Nat
deriving Repr, DecidableEq

/-- A Set-Cookie emitted by the handlers: cookie name, the signed token
stored as its value, and its attribute options. -/
structure SetCookie where
  name : String
  value : SignedToken
  options : CookieOptions
deriving Repr, DecidableEq

/-- The 200 success response of login: the Set-Cookie side effect plus
the JSON data fields accessToken, userId, name and role. -/
structure LoginSuccess where
  statusCode : Nat
  message : String
  cookie : SetCookie
  accessToken : SignedToken
  userId : String
  name : String
  role : Option String
deriving Repr, DecidableEq

/-- Outcome of the login handler: a failure envelope handed to next, a
success response, or a runtime error escaping the handler — login has no
try/catch, so a rejected bcrypt comparison produces no envelope at
all. -/
inductive LoginResult where
  | err (e : ErrEnvelope)
  | escaped (k : JsErrorKind)
  | ok (resp : LoginSuccess)
deriving Repr, DecidableEq

/-- Model of login (patientController.js lines 183-214): look up the
user by email, compare the password against the stored hash, and on
success set the refreshToken cookie (HttpOnly, Secure only in
production, SameSite Strict, Max-Age the constant 30 days in
milliseconds) and return the access token with the minimal profile.
Both failure checks produce byte-identical message text. -/
def login (compare : String → String → Bool) (cfg : Config) (now : Nat)
    (store : List User) (email password : String) : LoginResult :=
  match store.find? (fun u => u.email == email) with
  | none =>
    .err (createError "Invalid email or password" 401 (some "INVALID_CREDENTIALS")
      (.email email))
  | some user =>
    match bcryptCompare compare password user.password with
    | .error k => .escaped k
    | .ok false =>
      .err (createError "Invalid email or password" 401 (some "INVALID_CREDENTIALS")
        (.email email))
    | .ok true =>
      .ok
        { statusCode := 200
          message := "Login successful"
          cookie :=
            { name := "refreshToken"
              value := generateRefreshToken cfg now user.id user.role
              options :=
                { httpOnly := true
                  secure := cfg.nodeEnvProduction
                  sameSite := "Strict"
                  maxAgeMs := 30 * 24 * 60 * 60 * 1000 } }
          accessToken := generateAccessToken cfg now user.id user.role
          userId := user.id
          name := user.name
          role := user.role }

/-- Outcome of the refresh-token handler. -/
inductive RefreshResult where
  | err (e : ErrEnvelope)
  | ok (statusCode : Nat) (message : String) (accessToken : SignedToken)
deriving Repr, DecidableEq

/-- Model of refreshToken (patientController.js lines 216-233, the
handler wired to GET /api/auth/refresh-token): 401 when the cookie is
absent, 403 when jwt.verify fails against the refresh secret, and
otherwise a 200 carrying a new access token minted from the decoded id
and role. -/
def refreshTokenHandler (cfg : Config) (now : Nat)
    (cookie : Option SignedToken) : RefreshResult :=
  match cookie with
  | none => .err (createError "Refresh token is required" 401 none .omitted)
  | some tok =>
    match jwtVerify tok cfg.jwtRefreshSecret now with
    | none =>
      .err (createError
        "Refresh token is expired , your session is ended , login again !" 403
        none .omitted)
    | some decoded =>
      .ok 200 "Token refreshed successfully"
        (generateAccessToken cfg now decoded.id decoded.role)

/-- The name/email identity obtained from the decoded Google id_token. -/
structure GoogleProfile where
  email : String
  name : String
deriving Repr, DecidableEq

/-- The observable outcome of the OAuth callback before the redirect:
the refreshToken Set-Cookie and the access token embedded in the
redirect URL. -/
structure OAuthOutcome where
  cookie : SetCookie
  accessToken : SignedToken
deriving Repr, DecidableEq

/-- The token-minting tail of googleCallback: both tokens are minted for
the final user and the refreshToken cookie uses the same attribute bag
as login, with the same hardcoded 30-day Max-Age. -/
def oauthEmit (cfg : Config) (now : Nat) (finalUser : User) : OAuthOutcome :=
  ⟨{ name := "refreshToken"
     value := generateRefreshToken cfg now finalUser.id finalUser.role
     options :=
       { httpOnly := true
         secure := cfg.nodeEnvProduction
         sameSite := "Strict"
         maxAgeMs := 30 * 24 * 60 * 60 * 1000 } },
    generateAccessToken cfg now finalUser.id finalUser.role⟩

/-- Model of googleCallback (patientController.js lines 235-266) after
the provider exchange: upsert by email — a new user gets google true,
role "doctor" and no password — then mint both tokens for the final
user.  The handler has no try/catch, so a save-time validation error
escapes. -/
def googleCallback (cfg : Config) (now : Nat) (store : List User)
    (freshId : String) (profile : GoogleProfile) :
    Except JsErrorKind (OAuthOutcome × List User) :=
  match store.find? (fun u => u.email == profile.email) with
  | some u => .ok (oauthEmit cfg now u, store)
  | none =>
    let newUser : User := ⟨freshId, profile.name, profile.email, none, true, some "doctor"⟩
    match saveUser store newUser with
    | .ok store2 => .ok (oauthEmit cfg now newUser, store2)
    | .error k => .error k

/-- The Max-Age (ms) of the refreshToken cookie set by a login outcome,
when the outcome set one. -/
def loginCookieMaxAgeMs : LoginResult → Option Nat
  | .ok resp => some resp.cookie.options.maxAgeMs
  | _ => none

/-- A concrete configuration used for concrete evaluations: access
expiry 600 s, refresh expiry 604800 s (7 days), non-production. -/
def cfgW : Config := ⟨"access-secret", 600, "refresh-secret", 604800, false⟩

/-- A concrete stored identity with a password hash. -/
def aliceW : User := ⟨"u1", "Alice", "alice@x.com", some "HASH", false, some "doctor"⟩

/-! Helper lemmas shared by the claim theorems. -/

/-- The fourteen rules of registerSchema, in schema key order. -/
def allRules : List Rule :=
  [.nameRequired, .nameEmpty, .nameMin, .nameMax,
   .emailRequired, .emailEmpty, .emailFormat,
   .passwordRequired, .passwordEmpty, .passwordMin, .passwordPattern,
   .roleRequired, .roleEmpty, .roleEnum]

theorem filter_nameRules (eo : String → Bool) (n e p ro : Option String) :
    ([.nameRequired, .nameEmpty, .nameMin, .nameMax] : List Rule).filter
      (ruleViolated eo ⟨n, e, p, ro⟩) = validateName n := by
  cases n with
  | none => rfl
  | some s =>
    by_cases hs : s = ""
    · subst hs; rfl
    · by_cases h3 : s.length < 3 <;> by_cases h50 : 50 < s.length <;>
        simp [List.filter_cons, ruleViolated, validateName, hs, h3, h50]

theorem filter_emailRules (eo : String → Bool) (n e p ro : Option String) :
    ([.emailRequired, .emailEmpty, .emailFormat] : List Rule).filter
      (ruleViolated eo ⟨n, e, p, ro⟩) = validateEmail eo e := by
  cases e with
  | none => rfl
  | some s =>
    by_cases hs : s = ""
    · subst hs; rfl
    · by_cases hf : eo s <;>
        simp [List.filter_cons, ruleViolated, validateEmail, hs, hf]

theorem filter_passwordRules (eo : String → Bool) (n e p ro : Option String) :
    ([.passwordRequired, .passwordEmpty, .passwordMin, .passwordPattern] : List Rule).filter
      (ruleViolated eo ⟨n, e, p, ro⟩) = validatePassword p := by
  cases p with
  | none => rfl
  | some s =>
    by_cases hs : s = ""
    · subst hs; rfl
    · by_cases h8 : s.length < 8 <;> by_cases hp : passwordPatternOk s <;>
        simp [List.filter_cons, ruleViolated, validatePassword, hs, h8, hp]

theorem filter_roleRules (eo : String → Bool) (n e p ro : Option String) :
    ([.roleRequired, .roleEmpty, .roleEnum] : List Rule).filter
      (ruleViolated eo ⟨n, e, p, ro⟩) = validateRole ro := by
  cases ro with
  | none => rfl
  | some s =>
    by_cases hs : s = ""
    · subst hs; rfl
    · by_cases hr : registerRoleEnum.contains s <;>
        simp [List.filter_cons, ruleViolated, validateRole, hs, hr]

/-- The Joi collection of violated rules is exactly the filter of the
independent per-rule reading over the full rule list, in order: the
validator is exhaustive, never fail-fast. -/
theorem registerValidate_eq_filter (eo : String → Bool) (input : RegisterInput) :
    registerValidate eo input = allRules.filter (ruleViolated eo input) := by
  rcases input with ⟨n, e, p, ro⟩
  have hsplit : allRules =
      ([.nameRequired, .nameEmpty, .nameMin, .nameMax] : List Rule) ++
      [.emailRequired, .emailEmpty, .emailFormat] ++
      [.passwordRequired, .passwordEmpty, .passwordMin, .passwordPattern] ++
      [.roleRequired, .roleEmpty, .roleEnum] := rfl
  rw [hsplit, List.filter_append, List.filter_append, List.filter_append,
    filter_nameRules, filter_emailRules, filter_passwordRules, filter_roleRules]
  rfl

theorem mem_allRules (r : Rule) : r ∈ allRules := by cases r <;> simp [allRules]

/-- A rule is reported by the validator exactly when it is violated. -/
theorem mem_registerValidate (eo : String → Bool) (input : RegisterInput) (r : Rule) :
    r ∈ registerValidate eo input ↔ ruleViolated eo input r = true := by
  rw [registerValidate_eq_filter, List.mem_filter]
  exact ⟨fun h => h.2, fun h => ⟨mem_allRules r, h⟩⟩

/-- find? over an append skips a prefix in which nothing matches. -/
theorem find?_append_of_none {α : Type} (p : α → Bool) (l₁ l₂ : List α)
    (h : l₁.find? p = none) : (l₁ ++ l₂).find? p = l₂.find? p := by
  induction l₁ with
  | nil => rfl
  | cons a t ih =>
    cases hpa : p a with
    | true => rw [List.find?_cons_of_pos _ hpa] at h; exact absurd h (by simp)
    | false =>
      rw [List.find?_cons_of_neg _ (by simp [hpa])] at h
      rw [List.cons_append, List.find?_cons_of_neg _ (by simp [hpa])]
      exact ih h

/-! The claim theorems. -/

/-- Claim C1 (divergence of the code from its own unit tests): the role
guard does NOT consume the identity attached to the request context —
with an identity attached but no Authorization header it fails 401
instead of calling through, and with no identity attached but a valid
bearer header it calls through instead of failing 401, because it
re-extracts and re-verifies the token itself. -/
theorem c1_authorization_reverifies :
    authorization cfgW 0 ["doctor"] ⟨none, some ⟨"user123", some "doctor"⟩⟩ =
      .nextErr (createError "Authorization failed" 401 (some "AUTHORIZATION_ERROR")
        (.caught .typeErrorHeaderUndefined)) ∧
    authorization cfgW 0 ["doctor"]
      ⟨some [.word "Bearer", .tok ⟨"u1", some "doctor", "access-secret", 0, 600⟩], none⟩ =
      .proceed none := by decide

/-- Claim C2: for every decoded identity whose role string is not an
exact, case-sensitive member of allowedRoles, the guard denies with
status 403; in particular the empty allow-list denies every caller. -/
theorem c2_authorization_denies_nonmember (cfg : Config) (now : Nat)
    (allowedRoles : List String) (req : MwRequest) (parts : List HeaderPart)
    (part : HeaderPart) (decoded : Claims) (r : String)
    (hhdr : req.authorizationHeader = some parts)
    (hpart : parts[1]? = some part)
    (hver : jwtVerifyPart part cfg.jwtAccessSecret now = some decoded)
    (hrole : decoded.role = some r)
    (hmem : allowedRoles.contains r = false) :
    authorization cfg now allowedRoles req =
      .nextErr (createError "You are not authorized to access this resource" 403
        (some "UNAUTHORIZED") (.roleOf (some r))) ∧
    authorization cfg now [] req =
      .nextErr (createError "You are not authorized to access this resource" 403
        (some "UNAUTHORIZED") (.roleOf (some r))) := by
  have hm : r ∉ allowedRoles := by simpa using hmem
  unfold authorization
  rw [hhdr]
  by_cases hr : r = "" <;>
    simp [hpart, hver, hrole, jsTruthyStr, roleIncluded, hm, hr]

/-- Claim C2 witness: role "Doctor" is denied by allow-list ["doctor"]
(case-sensitive), and role "admin" is denied by the empty allow-list. -/
theorem c2_witness :
    authorization cfgW 0 ["doctor"]
      ⟨some [.word "Bearer", .tok ⟨"u1", some "Doctor", "access-secret", 0, 600⟩], none⟩ =
      .nextErr (createError "You are not authorized to access this resource" 403
        (some "UNAUTHORIZED") (.roleOf (some "Doctor"))) ∧
    authorization cfgW 0 []
      ⟨some [.word "Bearer", .tok ⟨"u2", some "admin", "access-secret", 0, 600⟩], none⟩ =
      .nextErr (createError "You are not authorized to access this resource" 403
        (some "UNAUTHORIZED") (.roleOf (some "admin"))) := by
  constructor
  · exact (c2_authorization_denies_nonmember cfgW 0 ["doctor"]
      ⟨some [.word "Bearer", .tok ⟨"u1", some "Doctor", "access-secret", 0, 600⟩], none⟩
      [.word "Bearer", .tok ⟨"u1", some "Doctor", "access-secret", 0, 600⟩]
      (.tok ⟨"u1", some "Doctor", "access-secret", 0, 600⟩)
      ⟨"u1", some "Doctor"⟩ "Doctor"
      rfl rfl (by decide) rfl (by decide)).1
  · exact (c2_authorization_denies_nonmember cfgW 0 ["staff"]
      ⟨some [.word "Bearer", .tok ⟨"u2", some "admin", "access-secret", 0, 600⟩], none⟩
      [.word "Bearer", .tok ⟨"u2", some "admin", "access-secret", 0, 600⟩]
      (.tok ⟨"u2", some "admin", "access-secret", 0, 600⟩)
      ⟨"u2", some "admin"⟩ "admin"
      rfl rfl (by decide) rfl (by decide)).2

/-- Claim C3 counterexample: a header of the form "Basic <token>" is not
of the form "Bearer <token>", yet the verifier accepts the token and
continues instead of failing 401 — the scheme word is never checked; and
the details string written on verification failure is
"Token is  expired or invalid" (doubled space), not the quoted
"Token is expired or invalid". -/
theorem c3_counterexample :
    verifyToken cfgW 50
      ⟨some [.word "Basic", .tok ⟨"u1", some "doctor", "access-secret", 0, 600⟩], none⟩ =
      .proceed (some ⟨"u1", some "doctor"⟩) ∧
    verifyToken cfgW 700
      ⟨some [.word "Bearer", .tok ⟨"u1", some "doctor", "access-secret", 0, 600⟩], none⟩ =
      .nextErr (createError "invalid access token" 403 none
        (.str "Token is  expired or invalid")) ∧
    ("Token is  expired or invalid" : String) ≠ "Token is expired or invalid" := by
  decide

/-- Claim C3 (amended): the verifier fails 401 exactly when the
extracted second space-separated component of the Authorization header
is falsy — the header is absent, has no second component, or its second
component is the empty string (as in "Bearer " or "Bearer  x"); every
truthy extracted token failing verification yields 403 with details
"Token is  expired or invalid"; every verifying token is attached to the
context and the chain continues. -/
theorem c3_verifyToken_behavior (cfg : Config) (now : Nat) (req : MwRequest) :
    ((req.authorizationHeader >>= fun parts => parts[1]?) = none →
      verifyToken cfg now req =
        .nextErr (createError "Access token is required" 401 none .omitted)) ∧
    ((req.authorizationHeader >>= fun parts => parts[1]?) = some (.word "") →
      verifyToken cfg now req =
        .nextErr (createError "Access token is required" 401 none .omitted)) ∧
    (∀ part, (req.authorizationHeader >>= fun parts => parts[1]?) = some part →
      part ≠ .word "" →
      jwtVerifyPart part cfg.jwtAccessSecret now = none →
      verifyToken cfg now req =
        .nextErr (createError "invalid access token" 403 none
          (.str "Token is  expired or invalid"))) ∧
    (∀ part decoded, (req.authorizationHeader >>= fun parts => parts[1]?) = some part →
      jwtVerifyPart part cfg.jwtAccessSecret now = some decoded →
      verifyToken cfg now req = .proceed (some decoded)) := by
  refine ⟨fun h => ?_, fun h => ?_, fun part h hne hv => ?_, fun part decoded h hv => ?_⟩
  · unfold verifyToken; simp [h]
  · unfold verifyToken; simp [h]
  · unfold verifyToken; simp [h, hne, hv]
  · have hne : part ≠ .word "" := by
      intro hcon; rw [hcon] at hv; exact absurd hv (by simp [jwtVerifyPart])
    unfold verifyToken; simp [h, hne, hv]

/-- Claim C3 witness: the four behaviours at concrete requests,
including the empty second component of "Bearer " answering 401. -/
theorem c3_witness :
    verifyToken cfgW 0 ⟨none, none⟩ =
      .nextErr (createError "Access token is required" 401 none .omitted) ∧
    verifyToken cfgW 0 ⟨some [.word "Bearer", .word ""], none⟩ =
      .nextErr (createError "Access token is required" 401 none .omitted) ∧
    verifyToken cfgW 0 ⟨some [.word "Bearer", .word "junk"], none⟩ =
      .nextErr (createError "invalid access token" 403 none
        (.str "Token is  expired or invalid")) ∧
    verifyToken cfgW 10
      ⟨some [.word "Bearer", .tok ⟨"u1", some "staff", "access-secret", 0, 600⟩], none⟩ =
      .proceed (some ⟨"u1", some "staff"⟩) := by
  refine ⟨(c3_verifyToken_behavior cfgW 0 _).1 rfl,
    (c3_verifyToken_behavior cfgW 0 _).2.1 rfl,
    (c3_verifyToken_behavior cfgW 0 _).2.2.1 (.word "junk") rfl (by decide) rfl,
    (c3_verifyToken_behavior cfgW 10 _).2.2.2
      (.tok ⟨"u1", some "staff", "access-secret", 0, 600⟩) ⟨"u1", some "staff"⟩
      rfl (by decide)⟩

/-- Claim C4: login with an unknown email and login with a known email
but failing password comparison produce the very same 401 envelope with
message "Invalid email or password" — the two failures are
indistinguishable to the caller. -/
theorem c4_login_indistinguishable (compare : String → String → Bool) (cfg : Config)
    (now : Nat) (store : List User) (email password : String) :
    (store.find? (fun u => u.email == email) = none →
      login compare cfg now store email password =
        .err (createError "Invalid email or password" 401 (some "INVALID_CREDENTIALS")
          (.email email))) ∧
    (∀ u h, store.find? (fun u => u.email == email) = some u →
      u.password = some h → compare password h = false →
      login compare cfg now store email password =
        .err (createError "Invalid email or password" 401 (some "INVALID_CREDENTIALS")
          (.email email))) := by
  constructor
  · intro h; unfold login; rw [h]
  · intro u hsh hfind hpw hcmp
    unfold login; rw [hfind]; simp [bcryptCompare, hpw, hcmp]

/-- Claim C4 witness: both failure paths at a concrete store. -/
theorem c4_witness :
    login (fun _ _ => false) cfgW 0 [aliceW] "bob@x.com" "pw" =
      .err (createError "Invalid email or password" 401 (some "INVALID_CREDENTIALS")
        (.email "bob@x.com")) ∧
    login (fun _ _ => false) cfgW 0 [aliceW] "alice@x.com" "pw" =
      .err (createError "Invalid email or password" 401 (some "INVALID_CREDENTIALS")
        (.email "alice@x.com")) := by
  constructor
  · exact (c4_login_indistinguishable (fun _ _ => false) cfgW 0 [aliceW]
      "bob@x.com" "pw").1 (by decide)
  · exact (c4_login_indistinguishable (fun _ _ => false) cfgW 0 [aliceW]
      "alice@x.com" "pw").2 aliceW "HASH" (by decide) rfl rfl

/-- Claim C5: the refresh handler fails 401 without the cookie, fails
403 when the presented refresh token does not verify against the
refresh secret, and on success returns 200 with a freshly minted access
token whose embedded id and role equal those of the presented refresh
token. -/
theorem c5_refresh_behavior (cfg : Config) (now : Nat) (cookie : Option SignedToken) :
    (cookie = none → refreshTokenHandler cfg now cookie =
      .err (createError "Refresh token is required" 401 none .omitted)) ∧
    (∀ tok, cookie = some tok → jwtVerify tok cfg.jwtRefreshSecret now = none →
      refreshTokenHandler cfg now cookie =
        .err (createError
          "Refresh token is expired , your session is ended , login again !" 403
          none .omitted)) ∧
    (∀ tok decoded, cookie = some tok →
      jwtVerify tok cfg.jwtRefreshSecret now = some decoded →
      refreshTokenHandler cfg now cookie =
        .ok 200 "Token refreshed successfully"
          (generateAccessToken cfg now decoded.id decoded.role) ∧
      decoded.id = tok.id ∧ decoded.role = tok.role ∧
      (generateAccessToken cfg now decoded.id decoded.role).id = tok.id ∧
      (generateAccessToken cfg now decoded.id decoded.role).role = tok.role) := by
  refine ⟨fun h => ?_, fun tok h hv => ?_, fun tok decoded h hv => ?_⟩
  · subst h; rfl
  · subst h; unfold refreshTokenHandler; simp [hv]
  · subst h
    have hdec : decoded = ⟨tok.id, tok.role⟩ := by
      unfold jwtVerify at hv
      split at hv
      · exact (Option.some.injEq _ _ ▸ hv).symm
      · exact absurd hv (by simp)
    subst hdec
    refine ⟨?_, rfl, rfl, rfl, rfl⟩
    unfold refreshTokenHandler; simp [hv]

/-- Claim C5 witness: the three behaviours at concrete cookies. -/
theorem c5_witness :
    refreshTokenHandler cfgW 0 none =
      .err (createError "Refresh token is required" 401 none .omitted) ∧
    refreshTokenHandler cfgW 999999
      (some ⟨"u1", some "doctor", "refresh-secret", 0, 604800⟩) =
      .err (createError
        "Refresh token is expired , your session is ended , login again !" 403
        none .omitted) ∧
    refreshTokenHandler cfgW 100
      (some ⟨"u1", some "doctor", "refresh-secret", 0, 604800⟩) =
      .ok 200 "Token refreshed successfully"
        (generateAccessToken cfgW 100 "u1" (some "doctor")) := by
  refine ⟨(c5_refresh_behavior cfgW 0 none).1 rfl,
    (c5_refresh_behavior cfgW 999999 _).2.1 _ rfl (by decide),
    ((c5_refresh_behavior cfgW 100 _).2.2 ⟨"u1", some "doctor", "refresh-secret", 0, 604800⟩
      ⟨"u1", some "doctor"⟩ rfl (by decide)).1⟩

/-- Claim C6: issuing an access token and verifying it against the
access secret at any instant before the configured expiry has elapsed
succeeds and yields the very id and role that were issued. -/
theorem c6_access_roundtrip (cfg : Config) (now t : Nat) (id role : String)
    (h : t < now + cfg.jwtAccessExpiresIn) :
    jwtVerify (generateAccessToken cfg now id (some role)) cfg.jwtAccessSecret t =
      some ⟨id, some role⟩ := by
  simp [jwtVerify, generateAccessToken, h]

/-- Claim C6 witness: a concrete round trip inside the expiry window. -/
theorem c6_witness :
    (5 : Nat) < 0 + cfgW.jwtAccessExpiresIn ∧
    jwtVerify (generateAccessToken cfgW 0 "u7" (some "staff")) cfgW.jwtAccessSecret 5 =
      some ⟨"u7", some "staff"⟩ :=
  ⟨by decide, c6_access_roundtrip cfgW 0 5 "u7" "staff" (by decide)⟩

/-- Claim C7: registration validation is exhaustive — the reported
details are exactly the violated rules, one per rule, never only the
first; a valid input whose email already exists fails 400 USER_EXISTS;
and a successful registration persists the new identity with the hashed
password and responds 201 with only the new identity's id, name and
email (the response is fully determined by those three values — the hash
appears nowhere in it). -/
theorem c7_register_behavior (hash : String → String) (eo : String → Bool)
    (store : List User) (freshId : String) (input : RegisterInput) :
    (∀ r : Rule, r ∈ registerValidate eo input ↔ ruleViolated eo input r = true) ∧
    (registerValidate eo input ≠ [] →
      Register hash eo store freshId input =
        (.err (createError "Validation Error" 400 (some "VALIDATION_FAILED")
          (.rules (registerValidate eo input))), store)) ∧
    (registerValidate eo input = [] →
      (∀ u, store.find? (fun v => v.email == input.email.getD "") = some u →
        Register hash eo store freshId input =
          (.err (createError "User already exists" 400 (some "USER_EXISTS")
            (.email (input.email.getD ""))), store)) ∧
      (store.find? (fun v => v.email == input.email.getD "") = none →
        userSchemaValid ⟨freshId, input.name.getD "", input.email.getD "",
          some (hash (input.password.getD "")), false, input.role⟩ = true →
        Register hash eo store freshId input =
          (.created 201 "User registered successfully" freshId (input.name.getD "")
            (input.email.getD ""),
           store ++ [⟨freshId, input.name.getD "", input.email.getD "",
             some (hash (input.password.getD "")), false, input.role⟩]))) := by
  refine ⟨mem_registerValidate eo input, fun hne => ?_,
    fun h0 => ⟨fun u hfind => ?_, fun hfind hvalid => ?_⟩⟩
  · unfold Register; simp [hne]
  · unfold Register; simp [h0, hfind]
  · unfold Register; simp [h0, hfind, saveUser, hvalid]

/-- Claim C7 witness: a doubly-invalid input is reported with both of
its violations; a duplicate email fails USER_EXISTS; a fresh valid input
is created with the hashed password stored and only id/name/email
returned. -/
theorem c7_witness :
    registerValidate (fun _ => true) ⟨some "Al", some "a@x.com", some "Passw0rd!", some "boss"⟩ =
      [.nameMin, .roleEnum] ∧
    Register (fun s => s ++ "-h") (fun _ => true) [aliceW] "u9"
      ⟨some "Al", some "a@x.com", some "Passw0rd!", some "boss"⟩ =
      (.err (createError "Validation Error" 400 (some "VALIDATION_FAILED")
        (.rules [.nameMin, .roleEnum])), [aliceW]) ∧
    Register (fun s => s ++ "-h") (fun _ => true) [aliceW] "u9"
      ⟨some "Alice", some "alice@x.com", some "Passw0rd!", some "doctor"⟩ =
      (.err (createError "User already exists" 400 (some "USER_EXISTS")
        (.email "alice@x.com")), [aliceW]) ∧
    Register (fun s => s ++ "-h") (fun _ => true) [aliceW] "u9"
      ⟨some "Bob Stone", some "bob@x.com", some "Passw0rd!", some "doctor"⟩ =
      (.created 201 "User registered successfully" "u9" "Bob Stone" "bob@x.com",
       [aliceW, ⟨"u9", "Bob Stone", "bob@x.com", some "Passw0rd!-h", false, some "doctor"⟩]) := by
  refine ⟨by decide, ?_, ?_, ?_⟩
  · have h := (c7_register_behavior (fun s => s ++ "-h") (fun _ => true) [aliceW] "u9"
      ⟨some "Al", some "a@x.com", some "Passw0rd!", some "boss"⟩).2.1 (by decide)
    rw [h]; decide
  · exact ((c7_register_behavior (fun s => s ++ "-h") (fun _ => true) [aliceW] "u9"
      ⟨some "Alice", some "alice@x.com", some "Passw0rd!", some "doctor"⟩).2.2
        (by decide)).1 aliceW (by decide)
  · exact ((c7_register_behavior (fun s => s ++ "-h") (fun _ => true) [aliceW] "u9"
      ⟨some "Bob Stone", some "bob@x.com", some "Passw0rd!", some "doctor"⟩).2.2
        (by decide)).2 (by decide) (by decide)

/-- Claim C8 counterexample: with the refresh expiry configured to
604800 seconds (7 days), a successful login still sets a cookie whose
Max-Age is the hardcoded 2592000000 ms (30 days), which is not the
configured refresh expiry duration. -/
theorem c8_counterexample :
    loginCookieMaxAgeMs (login (fun _ _ => true) cfgW 0 [aliceW] "alice@x.com" "pw") =
      some 2592000000 ∧
    cfgW.jwtRefreshExpiresIn = 604800 ∧ (2592000000 : Nat) ≠ 604800 * 1000 := by
  decide

/-- Claim C8 (amended): every refreshToken cookie set by login and by
the OAuth callback is HttpOnly, SameSite Strict, Secure exactly in
production, and its Max-Age is the hardcoded constant 2592000000 ms
(30 days), independent of the configured refresh-token expiry. -/
theorem c8_cookie_attributes (compare : String → String → Bool) (cfg : Config)
    (now : Nat) (store : List User) (email password : String) :
    (∀ resp, login compare cfg now store email password = .ok resp →
      resp.cookie.name = "refreshToken" ∧
      resp.cookie.options = ⟨true, cfg.nodeEnvProduction, "Strict", 2592000000⟩) ∧
    (∀ freshId profile out store2,
      googleCallback cfg now store freshId profile = .ok (out, store2) →
      out.cookie.name = "refreshToken" ∧
      out.cookie.options = ⟨true, cfg.nodeEnvProduction, "Strict", 2592000000⟩) := by
  constructor
  · intro resp h
    unfold login at h
    split at h
    · simp at h
    · split at h
      · simp at h
      · simp at h
      · injection h with h; subst h; exact ⟨rfl, rfl⟩
  · intro freshId profile out store2 h
    unfold googleCallback at h
    simp only [] at h
    split at h
    · injection h with h
      obtain ⟨h1, h2⟩ := Prod.mk.injEq .. ▸ h
      subst h1; exact ⟨rfl, rfl⟩
    · split at h
      · injection h with h
        obtain ⟨h1, h2⟩ := Prod.mk.injEq .. ▸ h
        subst h1; exact ⟨rfl, rfl⟩
      · exact absurd h (by simp)

/-- Claim C8 witness: concrete successful login and OAuth callback, with
their cookie attribute bags. -/
theorem c8_witness :
    (login (fun _ _ => true) cfgW 0 [aliceW] "alice@x.com" "pw" =
      .ok ⟨200, "Login successful",
        ⟨"refreshToken", generateRefreshToken cfgW 0 "u1" (some "doctor"),
          ⟨true, false, "Strict", 2592000000⟩⟩,
        generateAccessToken cfgW 0 "u1" (some "doctor"), "u1", "Alice", some "doctor"⟩ ∧
      (⟨200, "Login successful",
        ⟨"refreshToken", generateRefreshToken cfgW 0 "u1" (some "doctor"),
          ⟨true, false, "Strict", 2592000000⟩⟩,
        generateAccessToken cfgW 0 "u1" (some "doctor"), "u1", "Alice", some "doctor"⟩ :
          LoginSuccess).cookie.options =
        ⟨true, cfgW.nodeEnvProduction, "Strict", 2592000000⟩) ∧
    (googleCallback cfgW 0 [] "g1" ⟨"g@x.com", "Greta"⟩ =
      .ok (oauthEmit cfgW 0 ⟨"g1", "Greta", "g@x.com", none, true, some "doctor"⟩,
        [⟨"g1", "Greta", "g@x.com", none, true, some "doctor"⟩]) ∧
      (oauthEmit cfgW 0 ⟨"g1", "Greta", "g@x.com", none, true, some "doctor"⟩).cookie.options =
        ⟨true, cfgW.nodeEnvProduction, "Strict", 2592000000⟩) := by
  constructor
  · have h : login (fun _ _ => true) cfgW 0 [aliceW] "alice@x.com" "pw" =
        .ok ⟨200, "Login successful",
          ⟨"refreshToken", generateRefreshToken cfgW 0 "u1" (some "doctor"),
            ⟨true, false, "Strict", 2592000000⟩⟩,
          generateAccessToken cfgW 0 "u1" (some "doctor"), "u1", "Alice", some "doctor"⟩ := by
      decide
    exact ⟨h, ((c8_cookie_attributes (fun _ _ => true) cfgW 0 [aliceW] "alice@x.com" "pw").1
      _ h).2⟩
  · have h : googleCallback cfgW 0 [] "g1" ⟨"g@x.com", "Greta"⟩ =
        .ok (oauthEmit cfgW 0 ⟨"g1", "Greta", "g@x.com", none, true, some "doctor"⟩,
          [⟨"g1", "Greta", "g@x.com", none, true, some "doctor"⟩]) := by
      rfl
    exact ⟨h, ((c8_cookie_attributes (fun _ _ => true) cfgW 0 [] "x" "y").2
      "g1" ⟨"g@x.com", "Greta"⟩ _ _ h).2⟩

/-- Claim C9: an otherwise valid registration with role "patient" passes
the Joi schema (which accepts "patient"), but the User model admits only
admin/doctor/staff, so the save is rejected and the operation fails with
the 500 REGISTRATION_ERROR envelope, persisting nothing. -/
theorem c9_register_patient (hash : String → String) (eo : String → Bool)
    (store : List User) (freshId n e p : String)
    (hn3 : 3 ≤ n.length) (hn50 : n.length ≤ 50)
    (he : eo e = true) (he0 : e ≠ "")
    (hp : passwordPatternOk p = true)
    (hfresh : store.find? (fun v => v.email == e) = none) :
    registerValidate eo ⟨some n, some e, some p, some "patient"⟩ = [] ∧
    Register hash eo store freshId ⟨some n, some e, some p, some "patient"⟩ =
      (.err (createError "Registration failed" 500 (some "REGISTRATION_ERROR")
        (.caught .mongooseValidation)), store) := by
  have hn0 : n ≠ "" := by
    intro hcon; rw [hcon] at hn3; exact absurd hn3 (by decide)
  have hp0 : p ≠ "" := by
    intro hcon; rw [hcon] at hp; exact absurd hp (by decide)
  have h3 : ¬ n.length < 3 := by omega
  have h50 : ¬ 50 < n.length := by omega
  have hp8 : ¬ p.length < 8 := by
    unfold passwordPatternOk at hp
    simp only [Bool.and_eq_true, decide_eq_true_eq] at hp
    omega
  have hval : registerValidate eo ⟨some n, some e, some p, some "patient"⟩ = [] := by
    simp [registerValidate, validateName, validateEmail, validatePassword, validateRole,
      registerRoleEnum, hn0, he0, hp0, he, hp, h3, h50, hp8]
  refine ⟨hval, ?_⟩
  unfold Register
  simp [hval, hfresh, saveUser, userSchemaValid, userRoleEnum]

/-- Claim C9 witness: a concrete valid "patient" registration ending in
the 500 REGISTRATION_ERROR with nothing persisted. -/
theorem c9_witness :
    registerValidate (fun _ => true)
      ⟨some "Alice", some "a@x.com", some "Passw0rd!", some "patient"⟩ = [] ∧
    Register (fun s => s) (fun _ => true) [] "u9"
      ⟨some "Alice", some "a@x.com", some "Passw0rd!", some "patient"⟩ =
      (.err (createError "Registration failed" 500 (some "REGISTRATION_ERROR")
        (.caught .mongooseValidation)), []) :=
  c9_register_patient (fun s => s) (fun _ => true) [] "u9" "Alice" "a@x.com" "Passw0rd!"
    (by decide) (by decide) rfl (by decide) (by decide) rfl

/-- Claim C10: an identity created by the OAuth callback carries the
google flag and no password hash; login with its email then finds the
user (so the unknown-email branch is not taken), and the bcrypt
comparison against the absent hash rejects, so the failure escapes the
handler without ever producing the 401 INVALID_CREDENTIALS envelope. -/
theorem c10_oauth_login_escapes (cfg : Config) (now now2 : Nat) (store : List User)
    (freshId : String) (profile : GoogleProfile)
    (hfresh : store.find? (fun u => u.email == profile.email) = none)
    (hname : profile.name ≠ "") (hemail : profile.email ≠ "") :
    googleCallback cfg now store freshId profile =
      .ok (oauthEmit cfg now ⟨freshId, profile.name, profile.email, none, true, some "doctor"⟩,
        store ++ [⟨freshId, profile.name, profile.email, none, true, some "doctor"⟩]) ∧
    ∀ (compare : String → String → Bool) (password : String),
      login compare cfg now2
        (store ++ [⟨freshId, profile.name, profile.email, none, true, some "doctor"⟩])
        profile.email password = .escaped .bcryptIllegalArgs := by
  constructor
  · unfold googleCallback
    simp [hfresh, saveUser, userSchemaValid, userRoleEnum, hname, hemail]
  · intro compare password
    have hfind2 : (store ++ [(⟨freshId, profile.name, profile.email, none, true,
        some "doctor"⟩ : User)]).find? (fun u => u.email == profile.email) =
        some ⟨freshId, profile.name, profile.email, none, true, some "doctor"⟩ := by
      rw [find?_append_of_none _ _ _ hfresh]
      simp [List.find?]
    unfold login
    rw [hfind2]; rfl

/-- Claim C10 witness: a concrete OAuth-provisioned identity whose login
attempt escapes with the bcrypt rejection. -/
theorem c10_witness :
    googleCallback cfgW 0 [] "g1" ⟨"g@x.com", "Greta"⟩ =
      .ok (oauthEmit cfgW 0 ⟨"g1", "Greta", "g@x.com", none, true, some "doctor"⟩,
        [⟨"g1", "Greta", "g@x.com", none, true, some "doctor"⟩]) ∧
    login (fun _ _ => true) cfgW 7 [⟨"g1", "Greta", "g@x.com", none, true, some "doctor"⟩]
      "g@x.com" "anything" = .escaped .bcryptIllegalArgs := by
  have h := c10_oauth_login_escapes cfgW 0 7 [] "g1" ⟨"g@x.com", "Greta"⟩
    rfl (by decide) (by decide)
  exact ⟨h.1, h.2 (fun _ _ => true) "anything"⟩

end Clinic
